import Mathlib

/-!
Shallow embedding of the `web2api-recipes` extraction layer.

Each site recipe (`src/recipes/brave-search/scraper.py`,
`src/recipes/deepl/scraper.py`, `src/recipes/wikipedia/scraper.py`,
`src/recipes/x/scraper.py`) is translated into pure Lean functions.  The
browser page, the subprocess and the environment are modelled as explicit
input structures; Python semantics (string `int()` conversion, slicing,
`str.lower`, substring tests, `json.dumps`) are modelled by executable
helper functions.
-/

namespace Web2API

/-! ## Python semantics helpers -/

/-- Characters Python `str.strip()` and `\s` treat as whitespace (ASCII). -/
def pyIsSpace (c : Char) : Bool :=
  c = ' ' ∨ c = '\t' ∨ c = '\n' ∨ c = '\r' ∨ c = Char.ofNat 11 ∨ c = Char.ofNat 12

/-- Model of Python `s.strip()`. -/
def pyStrip (s : String) : String :=
  ⟨((s.data.dropWhile pyIsSpace).reverse.dropWhile pyIsSpace).reverse⟩

/-- Model of Python `s.lstrip(c)` for a single character. -/
def pyLStrip (c : Char) (s : String) : String :=
  ⟨s.data.dropWhile (fun d => d == c)⟩

/-- Model of Python `s.startswith(t)`. -/
def pyStartsWith (s t : String) : Bool :=
  List.isPrefixOf t.data s.data

/-- Model of Python `s.endswith(t)`. -/
def pyEndsWith (s t : String) : Bool :=
  List.isPrefixOf t.data.reverse s.data.reverse

/-- Model of the Python slice `s[:-n]` on a string (drop the last `n`
characters). -/
def pyDropRight (s : String) (n : Nat) : String :=
  ⟨s.data.take (s.data.length - n)⟩

/-- Model of the Python substring test `needle in haystack`. -/
def strContains (haystack needle : String) : Bool :=
  decide (needle.data <:+: haystack.data)

/-- Model of Python `str.lower()` (ASCII case folding). -/
def pyLower (s : String) : String :=
  ⟨s.data.map Char.toLower⟩

/-- Digit-and-underscore core of Python `int()`: digits may be separated by
single underscores; an underscore must follow a digit and be followed by a
digit; at least one digit is required. -/
def pyIntCore : List Char → Nat → Bool → Option Nat
  | [], acc, seenDigit => if seenDigit then some acc else none
  | c :: rest, acc, seenDigit =>
    if c.isDigit then pyIntCore rest (acc * 10 + (c.toNat - 48)) true
    else if c = '_' ∧ seenDigit then pyIntCore rest acc false
    else none

/-- Model of Python `int(s)` on strings: surrounding whitespace is stripped, an
optional sign is accepted, then a digit sequence; `none` models the
`ValueError` raised on any other input. -/
def pyInt (s : String) : Option Int :=
  match (pyStrip s).data with
  | '+' :: rest => (pyIntCore rest 0 false).map (fun n => (n : Int))
  | '-' :: rest => (pyIntCore rest 0 false).map (fun n => -(n : Int))
  | l => (pyIntCore l 0 false).map (fun n => (n : Int))

/-- Model of the Python slice `l[:n]`, including the negative-bound case
(`l[:-k]` drops the last `k` elements). -/
def pySliceTo {α : Type} (l : List α) (n : Int) : List α :=
  if 0 ≤ n then l.take n.toNat else l.take (l.length - n.natAbs)

/-- Model of Python `haystack.find(needle)` returning a character index, with
`none` for the `-1` not-found result. -/
def pyFindAux (needle : List Char) : List Char → Nat → Option Nat
  | hay, i =>
    if List.isPrefixOf needle hay then some i
    else
      match hay with
      | [] => none
      | _ :: t => pyFindAux needle t (i + 1)

/-- Character index of the first occurrence of `needle` in `haystack`. -/
def pyFind (haystack needle : String) : Option Nat :=
  pyFindAux needle.data haystack.data 0

/-- Model of the Python slice `s[i:]` by character index. -/
def pyDrop (s : String) (i : Nat) : String :=
  ⟨s.data.drop i⟩

/-- Model of `re.sub(r"\s+", " ", s)`: every maximal whitespace run becomes a
single space. -/
def collapseGo : List Char → Bool → List Char
  | [], _ => []
  | c :: rest, prevWs =>
    if pyIsSpace c then
      if prevWs then collapseGo rest true else ' ' :: collapseGo rest true
    else c :: collapseGo rest false

/-- Whitespace-run collapsing used by the Wikipedia infobox extractor. -/
def collapseWs (s : String) : String :=
  ⟨collapseGo s.data false⟩

/-! ## JSON values and `json.dumps`

Field values of extracted records are JSON-like values: the Python code moves
values parsed by `json.loads` (X recipe) or built from page text (Wikipedia
recipe) into result records, and serializes nested containers with
`json.dumps(..., ensure_ascii=False)`. -/

/-- JSON-like Python value as it appears in extracted records. -/
inductive Value where
  | null : Value
  | bool (b : Bool) : Value
  | num (n : Int) : Value
  | str (s : String) : Value
  | arr (xs : List Value) : Value
  | obj (fields : List (String × Value)) : Value

/-- True for the values Python's `isinstance(val, (list, dict))` test selects
for serialization. -/
def isContainer : Value → Bool
  | Value.arr _ => true
  | Value.obj _ => true
  | _ => false

/-- Scalar in the sense of the Result Model contract: text or number. -/
def isScalar : Value → Bool
  | Value.str _ => true
  | Value.num _ => true
  | _ => false

/-- Lower-case hexadecimal digit. -/
def hexDigit (n : Nat) : Char :=
  if n < 10 then Char.ofNat (48 + n) else Char.ofNat (97 + (n - 10))

/-- JSON string escaping as performed by `json.dumps`. -/
def jsonEscapeChar (c : Char) : String :=
  if c = Char.ofNat 34 then "\\\""
  else if c = '\\' then "\\\\"
  else if c = '\n' then "\\n"
  else if c = '\t' then "\\t"
  else if c = '\r' then "\\r"
  else if c = Char.ofNat 8 then "\\b"
  else if c = Char.ofNat 12 then "\\f"
  else if c.toNat < 32 then
    "\\u00" ++ String.singleton (hexDigit (c.toNat / 16))
      ++ String.singleton (hexDigit (c.toNat % 16))
  else String.singleton c

/-- `json.dumps` of a string (with `ensure_ascii=False`). -/
def dumpStr (s : String) : String :=
  "\"" ++ String.join (s.data.map jsonEscapeChar) ++ "\""

mutual

/-- Model of `json.dumps(v, ensure_ascii=False)` with the default separators
`", "` and `": "`. -/
def dumps : Value → String
  | Value.null => "null"
  | Value.bool true => "true"
  | Value.bool false => "false"
  | Value.num n => toString n
  | Value.str s => dumpStr s
  | Value.arr xs => "[" ++ dumpsArr xs ++ "]"
  | Value.obj fs => "\x7b" ++ dumpsObj fs ++ "\x7d"

/-- Comma-separated encoding of array elements. -/
def dumpsArr : List Value → String
  | [] => ""
  | [x] => dumps x
  | x :: y :: rest => dumps x ++ ", " ++ dumpsArr (y :: rest)

/-- Comma-separated encoding of object entries. -/
def dumpsObj : List (String × Value) → String
  | [] => ""
  | [(k, v)] => dumpStr k ++ ": " ++ dumps v
  | (k, v) :: x :: rest => dumpStr k ++ ": " ++ dumps v ++ ", " ++ dumpsObj (x :: rest)

end

/-! ## Result model, request parameters and failure kinds -/

/-- Modelled from the spec: the uniform Result Model (the `ScrapeResult` class
lives in the out-of-scope `web2api` host module, so only its shape is
available): an ordered sequence of record items, a `current_page` that
defaults to 1 when pagination is not applicable, and a `has_next` flag that
defaults to false. -/
structure ScrapeResult where
  items : List (List (String × Value))
  current_page : Int := 1
  has_next : Bool := false

/-- Request parameters: the `params` dict restricted to its recognized string
keys `query`, `count` and `page` (`none` models an absent key). -/
structure Params where
  query : Option String := none
  count : Option String := none
  page : Option String := none

/-- Failure kinds.  Each constructor stands for a distinct raise site of the
source, classified by the spec's taxonomy; `valueError`, `typeError` and
`keyError` model unhandled Python conversion/attribute/key errors that belong
to none of the spec's typed kinds. -/
inductive Err where
  | invalidRequest : Err
  | blocked : Err
  | notFound : Err
  | timeout : Err
  | externalToolFailure : Err
  | configurationMissing : Err
  | valueError : Err
  | typeError : Err
  | keyError : Err
deriving DecidableEq

/-! ## Translation recipe (`src/recipes/deepl/scraper.py`)

The convergence-polling loop of `Scraper.scrape` (lines 56-77) is embedded as
a step function over the sequence of observed target-area values. -/

/-- `required_stable = 6` (line 58). -/
def requiredStable : Nat := 6

/-- The loop bound `range(80)` (line 60). -/
def maxAttempts : Nat := 80

/-- Loop state: the last-seen non-trivial value (`translated`) and the
consecutive-unchanged counter (`stable_count`). -/
structure PollState where
  translated : String
  stableCount : Nat
deriving DecidableEq

/-- One loop iteration (lines 62-74): a trivial observation (empty or equal to
the stripped query) resets the counter; an observation equal to the last-seen
value increments it and exits with the value once the threshold is reached;
a new value is recorded with the counter reset. -/
def pollStep (query : String) (st : PollState) (current : String) : PollState ⊕ String :=
  if current = "" ∨ current = pyStrip query then Sum.inl ⟨st.translated, 0⟩
  else if current = st.translated then
    if requiredStable ≤ st.stableCount + 1 then Sum.inr st.translated
    else Sum.inl ⟨st.translated, st.stableCount + 1⟩
  else Sum.inl ⟨current, 0⟩

/-- Run the polling loop over a list of observed values; `Sum.inr v` is the
`break` with the stabilized value, `Sum.inl st` is loop exhaustion. -/
def pollRun (query : String) (obs : List String) (st : PollState) : PollState ⊕ String :=
  match obs with
  | [] => Sum.inl st
  | c :: rest =>
    match pollStep query st c with
    | Sum.inl st2 => pollRun query rest st2
    | Sum.inr v => Sum.inr v

/-- Outcome of the full polling phase. -/
inductive PollOutcome where
  | success (t : String) : PollOutcome
  | timeout : PollOutcome
deriving DecidableEq

/-- Post-loop check (lines 76-77): after a `break` the stabilized value is
returned; after exhaustion the timeout is raised iff `translated` is still
empty, otherwise the last-seen value is returned. -/
def finishPoll : PollState ⊕ String → PollOutcome
  | Sum.inr v => PollOutcome.success v
  | Sum.inl st =>
    if st.translated = "" then PollOutcome.timeout else PollOutcome.success st.translated

/-- Full polling phase of `Scraper.scrape` (lines 56-77): run up to
`maxAttempts` polls against the observation function, then apply the
post-loop check. -/
def convergencePoll (query : String) (obs : Nat → String) : PollOutcome :=
  finishPoll (pollRun query ((List.range maxAttempts).map obs) ⟨"", 0⟩)

/-- The module-level `_LANG_PAIRS` dict (lines 13-16). -/
def langPairs : List (String × String × String) :=
  [("de-en", ("de", "en")), ("en-de", ("en", "de"))]

/-- Per-invocation page environment of the translation recipe: whether the
source input element was found, and the value `_read_target` observes at each
poll. -/
structure DeeplEnv where
  sourceInputFound : Bool
  obs : Nat → String

/-- `Scraper.scrape` of the translation recipe.  The second component of the
result counts `page.goto` navigations performed. -/
def deeplScrape (endpoint : String) (p : Params) (env : DeeplEnv) :
    Except Err ScrapeResult × Nat :=
  match langPairs.lookup endpoint with
  | none => (Except.error Err.keyError, 0)
  | some (sourceLang, targetLang) =>
    let query := p.query.getD ""
    if pyStrip query = "" then
      (Except.ok { items := [[("source_text", Value.str ""),
                              ("translated_text", Value.str ""),
                              ("source_lang", Value.str sourceLang),
                              ("target_lang", Value.str targetLang)]] }, 0)
    else if env.sourceInputFound = false then
      (Except.error Err.timeout, 1)
    else
      match convergencePoll query env.obs with
      | PollOutcome.timeout => (Except.error Err.timeout, 1)
      | PollOutcome.success t =>
        (Except.ok { items := [[("source_text", Value.str query),
                                ("translated_text", Value.str t),
                                ("source_lang", Value.str sourceLang),
                                ("target_lang", Value.str targetLang)]] }, 1)

/-- `Scraper.supports` of the translation recipe (line 22-23). -/
def deeplSupports (endpoint : String) : Bool :=
  (langPairs.lookup endpoint).isSome

/-! ## Search-engine recipe (`src/recipes/brave-search/scraper.py`) -/

/-- A raw result snippet element as `_parse_snippet` observes it:
`titleTexts` and `descTexts` hold, per candidate selector in order, `none`
when `query_selector` finds no element and `some t` for an element with text
content `t`; `links` holds the `href` attributes of the
`a[href^='http']` elements in document order; `siteText` the text of the
site-name element, when present. -/
structure RawSnippet where
  titleTexts : List (Option String)
  links : List String
  descTexts : List (Option String)
  siteText : Option String

/-- Selector-fallback loop (lines 81-90 and 107-112): first candidate whose
stripped text is nonempty wins; a missing element or empty text falls through. -/
def firstNonempty : List (Option String) → String
  | [] => ""
  | none :: rest => firstNonempty rest
  | some t :: rest => if pyStrip t = "" then firstNonempty rest else pyStrip t

/-- URL loop (lines 96-101): the first link whose href does not contain
`"brave.com"` is taken; `""` when the loop finds none. -/
def firstExternalHref : List String → String
  | [] => ""
  | h :: rest => if strContains h "brave.com" then firstExternalHref rest else h

/-- Site-name cleanup (lines 115-122): stripped text, first line before a
newline, stripped again. -/
def siteName : Option String → String
  | none => ""
  | some t =>
    pyStrip ⟨(pyStrip t).data.takeWhile (fun c => c != '\n')⟩

/-- `Scraper._parse_snippet` (lines 75-135): a snippet without a nonempty
title or without an external href is rejected (`None`); otherwise a record
with `title`, `url`, `snippet` and, when nonempty, `site`. -/
def parseSnippet (s : RawSnippet) : Option (List (String × Value)) :=
  let title := firstNonempty s.titleTexts
  if title = "" then none
  else
    let href := firstExternalHref s.links
    if href = "" then none
    else
      let desc := firstNonempty s.descTexts
      let site := siteName s.siteText
      some ([("title", Value.str title), ("url", Value.str href),
             ("snippet", Value.str desc)]
            ++ (if site ≠ "" then [("site", Value.str site)] else []))

/-- Page environment of one search-engine invocation: the page title read
after navigation, whether the results container appeared within the bounded
wait, and the raw snippets `query_selector_all` returns. -/
structure BraveEnv where
  title : String
  containerAppears : Bool
  snippets : List RawSnippet

/-- Effects of one search-engine invocation: `page.goto` navigations and
element-query/extraction operations issued after the CAPTCHA check (the
bounded wait, the `query_selector_all`, and one per parsed snippet). -/
structure BraveEffects where
  navigations : Nat
  extractionQueries : Nat
deriving DecidableEq

/-- `Scraper.scrape` of the search-engine recipe (lines 22-73): validates the
query, converts `count`/`page` (an invalid integer raises `ValueError`),
clamps them, navigates, checks the title for `"captcha"` case-insensitively,
degrades a missing results container to an empty result, and otherwise
extracts up to `count` parsed snippets with `has_next` iff at least 10 raw
snippets were seen. -/
def braveScrape (p : Params) (env : BraveEnv) :
    Except Err ScrapeResult × BraveEffects :=
  let query := pyStrip (p.query.getD "")
  if query = "" then (Except.error Err.invalidRequest, ⟨0, 0⟩)
  else
    match pyInt (p.count.getD "20") with
    | none => (Except.error Err.valueError, ⟨0, 0⟩)
    | some count0 =>
      match pyInt (p.page.getD "1") with
      | none => (Except.error Err.valueError, ⟨0, 0⟩)
      | some page0 =>
        let count := min count0 50
        let pageNum := max page0 1
        if strContains (pyLower env.title) "captcha" then
          (Except.error Err.blocked, ⟨1, 0⟩)
        else if env.containerAppears = false then
          (Except.ok { items := [], current_page := pageNum, has_next := false },
           ⟨1, 1⟩)
        else
          let chosen := pySliceTo env.snippets count
          (Except.ok { items := chosen.filterMap parseSnippet,
                       current_page := pageNum,
                       has_next := decide (10 ≤ env.snippets.length) },
           ⟨1, 2 + chosen.length⟩)

/-- `Scraper.supports` of the search-engine recipe (lines 19-20). -/
def braveSupports (endpoint : String) : Bool :=
  endpoint == "search"

/-! ## Encyclopedia recipe (`src/recipes/wikipedia/scraper.py`) -/

/-- One `.mw-search-result` element: `heading` bundles the text content and
href attribute of the `.mw-search-result-heading a` element (each already
defaulted to `""` where the Python code applies `or ""`), `none` when the
element is missing; `snippetText`/`sizeText` are the optional snippet and
size elements' texts. -/
structure WikiRawResult where
  heading : Option (String × String)
  snippetText : Option String
  sizeText : Option String

/-- Per-result body of `_extract_search_results` (lines 140-166): a result
without a heading is skipped; relative hrefs are absolutized. -/
def wikiResultItem (r : WikiRawResult) : Option (List (String × Value)) :=
  match r.heading with
  | none => none
  | some (ttext, href) =>
    let title := pyStrip ttext
    let url := if pyStartsWith href "/" then "https://en.wikipedia.org" ++ href else href
    let snippet := (match r.snippetText with | some s => pyStrip s | none => "")
    let sizeInfo := (match r.sizeText with | some s => pyStrip s | none => "")
    some ([("title", Value.str title), ("url", Value.str url),
           ("snippet", Value.str snippet)]
          ++ (if sizeInfo ≠ "" then [("size_info", Value.str sizeInfo)] else []))

/-- `_extract_search_results` (lines 133-170). -/
def extractSearchResults (results : List WikiRawResult) (count : Int) :
    List (List (String × Value)) :=
  (pySliceTo results count).filterMap wikiResultItem

/-- `_extract_summary` paragraph collection (lines 181-189): paragraphs of
fewer than 10 characters are skipped, collection stops after 3. -/
def collectSummary : List String → Nat → List String
  | [], _ => []
  | t :: rest, n =>
    let s := pyStrip t
    if s = "" ∨ s.length < 10 then collectSummary rest n
    else if 3 ≤ n + 1 then [s]
    else s :: collectSummary rest (n + 1)

/-- `_extract_summary` (lines 172-191). -/
def extractSummary (paragraphTexts : List String) : String :=
  String.intercalate "\n\n" (collectSummary paragraphTexts 0)

/-- Python dict insertion: an existing key is updated in place, a new key is
appended. -/
def pySetKey (m : List (String × String)) (k v : String) : List (String × String) :=
  if m.any (fun kv => kv.1 = k) then
    m.map (fun kv => if kv.1 = k then (kv.1, v) else kv)
  else m ++ [(k, v)]

/-- `_extract_infobox` (lines 193-214): rows with both a header and a data
cell whose stripped texts are nonempty contribute a key-value pair, the value
whitespace-collapsed.  Rows are given as optional (header text, data text)
pairs. -/
def extractInfobox (infoboxPresent : Bool)
    (rows : List (Option String × Option String)) : List (String × String) :=
  if infoboxPresent = false then []
  else
    rows.foldl
      (fun m row =>
        match row with
        | (some h, some d) =>
          let key := pyStrip h
          let val := pyStrip d
          if key ≠ "" ∧ val ≠ "" then pySetKey m key (collapseWs val) else m
        | _ => m)
      []

/-- Text filtering shared by `_extract_toc` (lines 216-229) and
`_extract_categories` (lines 284-293): stripped texts, empty ones skipped. -/
def nonemptyTrimmed (texts : List String) : List String :=
  texts.filterMap (fun t => let s := pyStrip t; if s = "" then none else some s)

/-- One `h2`/`h3` heading of the article body: its tag name, the optional
`.mw-headline` child text, the heading's own text (the fallback), and the
following sibling elements as (tag name, text content) pairs. -/
structure WikiHeading where
  tag : String
  headlineText : Option String
  ownText : String
  siblings : List (String × String)

/-- Sibling walk of `_extract_sections` (lines 254-272): up to 50 siblings,
stopping at the next `H2`/`H3`, collecting nonempty stripped `P` texts. -/
def collectSiblings : Nat → List (String × String) → List String
  | 0, _ => []
  | _ + 1, [] => []
  | n + 1, (tag, text) :: rest =>
    if tag = "H2" ∨ tag = "H3" then []
    else if tag = "P" ∧ pyStrip text ≠ "" then pyStrip text :: collectSiblings n rest
    else collectSiblings n rest

/-- The `re.sub(r"\[edit\]$", "", title).strip()` cleanup (line 249). -/
def stripEdit (s : String) : String :=
  if pyEndsWith s "[edit]" then pyStrip (pyDropRight s 6) else pyStrip s

/-- Per-heading body of `_extract_sections` (lines 242-280): meta sections and
empty titles are skipped; the record holds heading, level and the joined
sibling paragraph text. -/
def sectionItem (h : WikiHeading) : Option (List (String × Value)) :=
  let title := stripEdit (pyStrip (h.headlineText.getD h.ownText))
  if title = "" ∨
      (pyLower title) ∈ ["references", "external links", "notes", "further reading"] then
    none
  else
    let level := if h.tag = "H2" then "h2" else "h3"
    some [("heading", Value.str title), ("level", Value.str level),
          ("content", Value.str (String.intercalate "\n\n" (collectSiblings 50 h.siblings)))]

/-- Page environment of an article extraction: the data `_extract_article`
and its helpers read from the page. -/
structure WikiArticleEnv where
  titleText : Option String
  pageUrl : String
  paragraphTexts : List String
  infoboxPresent : Bool
  infoboxRows : List (Option String × Option String)
  tocTexts : List String
  headings : List WikiHeading
  categoryTexts : List String
  langLinkCount : Nat

/-- The article record as `_extract_article` (lines 88-124) assembles it,
before serialization: optional title, url, summary, optional infobox and
table of contents, sections (always present), optional categories and
language count. -/
def articleBase (env : WikiArticleEnv) : List (String × Value) :=
  (match env.titleText with
   | some t => [("title", Value.str (pyStrip t))]
   | none => [])
  ++ [("url", Value.str env.pageUrl),
      ("summary", Value.str (extractSummary env.paragraphTexts))]
  ++ (let ib := extractInfobox env.infoboxPresent env.infoboxRows
      if ib = [] then []
      else [("infobox", Value.obj (ib.map (fun kv => (kv.1, Value.str kv.2))))])
  ++ (let toc := nonemptyTrimmed env.tocTexts
      if toc = [] then []
      else [("table_of_contents", Value.arr (toc.map Value.str))])
  ++ [("sections", Value.arr ((env.headings.filterMap sectionItem).map Value.obj))]
  ++ (let cats := nonemptyTrimmed env.categoryTexts
      if cats = [] then []
      else [("categories", Value.arr (cats.map Value.str))])
  ++ (if env.langLinkCount ≠ 0 then
        [("languages_available", Value.num env.langLinkCount)]
      else [])

/-- The serialization loop of `_extract_article` (lines 126-129): every
list/dict field is replaced by its `json.dumps` encoding in place. -/
def flattenItem (item : List (String × Value)) : List (String × Value) :=
  item.map (fun kv => if isContainer kv.2 then (kv.1, Value.str (dumps kv.2)) else kv)

/-- `_extract_article` (lines 88-131). -/
def extractArticle (env : WikiArticleEnv) : ScrapeResult :=
  { items := [flattenItem (articleBase env)], current_page := 1, has_next := false }

/-- Python dict insertion for record items (same semantics as `pySetKey`). -/
def pySetItem (d : List (String × Value)) (k : String) (v : Value) :
    List (String × Value) :=
  if d.any (fun kv => kv.1 = k) then
    d.map (fun kv => if kv.1 = k then (kv.1, v) else kv)
  else d ++ [(k, v)]

/-- `_article_from_redirect` (lines 81-86): annotate the first item with the
originating query. -/
def setRedirectedFrom (r : ScrapeResult) (q : String) : ScrapeResult :=
  match r.items with
  | [] => r
  | it :: rest => { r with items := pySetItem it "redirected_from" (Value.str q) :: rest }

/-- Page environment of one encyclopedia search invocation. -/
structure WikiSearchEnv where
  redirected : Bool
  articleEnv : WikiArticleEnv
  waitSucceeds : Bool
  noneFound : Bool
  results : List WikiRawResult
  hasNextLink : Bool

/-- `Scraper._search` (lines 26-61): query validation, `count`/`page`
conversion and clamping, the redirect-to-article shortcut, the bounded wait
(its timeout raises), the no-results marker, extraction and the next-link
pagination signal. -/
def wikiSearch (p : Params) (env : WikiSearchEnv) : Except Err ScrapeResult :=
  let query := pyStrip (p.query.getD "")
  if query = "" then Except.error Err.invalidRequest
  else
    match pyInt (p.count.getD "20") with
    | none => Except.error Err.valueError
    | some count0 =>
      match pyInt (p.page.getD "1") with
      | none => Except.error Err.valueError
      | some page0 =>
        let count := min count0 50
        let pageNum := max page0 1
        if env.redirected then
          Except.ok (setRedirectedFrom (extractArticle env.articleEnv) query)
        else if env.waitSucceeds = false then Except.error Err.timeout
        else if env.noneFound then
          Except.ok { items := [], current_page := pageNum, has_next := false }
        else
          Except.ok { items := extractSearchResults env.results count,
                      current_page := pageNum, has_next := env.hasNextLink }

/-- Page environment of one encyclopedia article invocation. -/
structure WikiArticlePageEnv where
  noArticle : Bool
  articleEnv : WikiArticleEnv

/-- `Scraper._article` (lines 63-79). -/
def wikiArticle (p : Params) (env : WikiArticlePageEnv) : Except Err ScrapeResult :=
  let query := pyStrip (p.query.getD "")
  if query = "" then Except.error Err.invalidRequest
  else if env.noArticle then Except.error Err.notFound
  else Except.ok (extractArticle env.articleEnv)

/-- `Scraper.scrape` of the encyclopedia recipe (lines 21-24): `search` goes
to `_search`, anything else to `_article`. -/
def wikiScrape (endpoint : String) (p : Params) (sEnv : WikiSearchEnv)
    (aEnv : WikiArticlePageEnv) : Except Err ScrapeResult :=
  if endpoint = "search" then wikiSearch p sEnv else wikiArticle p aEnv

/-- `Scraper.supports` of the encyclopedia recipe (lines 18-19). -/
def wikiSupports (endpoint : String) : Bool :=
  endpoint == "search" || endpoint == "article"

/-! ## Social-timeline recipe (`src/recipes/x/scraper.py`) -/

/-- Escaping of one character inside Python `repr` of a string, given the
chosen quote character. -/
def pyReprEsc (q c : Char) : String :=
  if c = '\\' then "\\\\"
  else if c = q then "\\" ++ String.singleton q
  else if c = '\n' then "\\n"
  else if c = '\r' then "\\r"
  else if c = '\t' then "\\t"
  else if c.toNat < 32 ∨ c.toNat = 127 then
    "\\x" ++ String.singleton (hexDigit (c.toNat / 16))
      ++ String.singleton (hexDigit (c.toNat % 16))
  else String.singleton c

/-- Python `repr` of a string: single quotes unless the string contains a
single quote and no double quote. -/
def pyReprStr (s : String) : String :=
  let q : Char :=
    if s.data.contains (Char.ofNat 39) ∧ s.data.contains (Char.ofNat 34) = false then
      Char.ofNat 34
    else Char.ofNat 39
  String.singleton q ++ String.join (s.data.map (pyReprEsc q)) ++ String.singleton q

mutual

/-- Python `repr` of a JSON-derived value. -/
def pyRepr : Value → String
  | Value.null => "None"
  | Value.bool true => "True"
  | Value.bool false => "False"
  | Value.num n => toString n
  | Value.str s => pyReprStr s
  | Value.arr xs => "[" ++ pyReprArr xs ++ "]"
  | Value.obj fs => "\x7b" ++ pyReprObj fs ++ "\x7d"

/-- Comma-separated `repr` of list elements. -/
def pyReprArr : List Value → String
  | [] => ""
  | [x] => pyRepr x
  | x :: y :: rest => pyRepr x ++ ", " ++ pyReprArr (y :: rest)

/-- Comma-separated `repr` of dict entries. -/
def pyReprObj : List (String × Value) → String
  | [] => ""
  | [(k, v)] => pyReprStr k ++ ": " ++ pyRepr v
  | (k, v) :: x :: rest => pyReprStr k ++ ": " ++ pyRepr v ++ ", " ++ pyReprObj (x :: rest)

end

/-- Python `str()` of a JSON-derived value, used by the f-string building the
permalink: identity on strings, `repr` otherwise. -/
def pyStr : Value → String
  | Value.str s => s
  | v => pyRepr v

/-- Python `dict.get(k, default)` on a JSON object. -/
def pyGetD (d : List (String × Value)) (k : String) (dflt : Value) : Value :=
  (d.lookup k).getD dflt

/-- Per-tweet mapping of `Scraper.scrape` (lines 91-104): builds the uniform
item from a tweet value; `none` models the attribute error raised when the
tweet or its `author` value is not a dict, or its `text` not a string. -/
def xItemOfTweet (username : String) (tweetVal : Value) :
    Option (List (String × Value)) :=
  match tweetVal with
  | Value.obj tweet =>
    match pyGetD tweet "author" (Value.obj []) with
    | Value.obj author =>
      let authorUsername := pyGetD author "username" (Value.str username)
      match pyGetD tweet "text" (Value.str "") with
      | Value.str text =>
        some [("text", Value.str text),
              ("author", authorUsername),
              ("author_name", pyGetD author "name" (Value.str "")),
              ("timestamp", pyGetD tweet "createdAt" (Value.str "")),
              ("url", Value.str ("https://x.com/" ++ pyStr authorUsername
                ++ "/status/" ++ pyStr (pyGetD tweet "id" (Value.str "")))),
              ("replies", pyGetD tweet "replyCount" Value.null),
              ("reposts", pyGetD tweet "retweetCount" Value.null),
              ("likes", pyGetD tweet "likeCount" Value.null),
              ("views", pyGetD tweet "viewCount" Value.null),
              ("is_retweet", Value.bool (pyStartsWith text "RT @"))]
      | _ => none
    | _ => none
  | _ => none

/-- Environment of one social-timeline invocation: the `_load_auth` result
(`none` models missing credentials), whether the bounded subprocess wait
timed out, and the subprocess exit code and streams. -/
structure XEnv where
  auth : Option (String × String)
  timedOut : Bool
  procExit : Int
  stdoutText : String
  stderrText : String

/-- `Scraper.scrape` of the social-timeline recipe (lines 50-110).  `loads`
abstracts `json.loads` (standard-library collaborator); `none` models its
decode error.  The recipe validates the handle, converts and clamps `count`,
loads credentials, classifies subprocess failure by stderr text, locates the
first `[` in stdout, parses, maps each tweet, and reports `has_next` iff the
tool returned more raw entries than requested. -/
def xScrape (loads : String → Option Value) (p : Params) (env : XEnv) :
    Except Err ScrapeResult :=
  let username := pyLStrip '@' (pyStrip (p.query.getD ""))
  if username = "" then Except.error Err.invalidRequest
  else
    match pyInt (p.count.getD "10") with
    | none => Except.error Err.valueError
    | some count0 =>
      let count := min count0 50
      match env.auth with
      | none => Except.error Err.configurationMissing
      | some _ =>
        if env.timedOut then Except.error Err.timeout
        else if env.procExit ≠ 0 then
          let errorMsg := pyStrip env.stderrText
          if strContains errorMsg "Could not find user"
              ∨ strContains (pyLower errorMsg) "not found" then
            Except.error Err.notFound
          else Except.error Err.externalToolFailure
        else
          let rawOutput := pyStrip env.stdoutText
          match pyFind rawOutput "[" with
          | none => Except.error Err.externalToolFailure
          | some jsonStart =>
            match loads (pyDrop rawOutput jsonStart) with
            | none => Except.error Err.valueError
            | some (Value.arr tweetsData) =>
              match (pySliceTo tweetsData count).mapM (xItemOfTweet username) with
              | none => Except.error Err.typeError
              | some items =>
                Except.ok { items := items, current_page := 1,
                            has_next := decide (count < (tweetsData.length : Int)) }
            | some _ => Except.error Err.typeError

/-- `Scraper.supports` of the social-timeline recipe (lines 47-48). -/
def xSupports (endpoint : String) : Bool :=
  endpoint == "posts"

/-- Number of registered recipes claiming an endpoint. -/
def supportCount (e : String) : Nat :=
  (braveSupports e).toNat + (deeplSupports e).toNat
    + (wikiSupports e).toNat + (xSupports e).toNat

/-- The spec test vector for convergence polling, with `"bonjour"` standing
for the original input text. -/
def c1Obs : List String :=
  ["bonjour", "bonjour", "partial", "partial",
   "final", "final", "final", "final", "final", "final"]

/-! ## Concrete environments used to instantiate theorems -/

/-- An article page with no extractable elements. -/
def emptyArticleEnv : WikiArticleEnv :=
  { titleText := none, pageUrl := "", paragraphTexts := [],
    infoboxPresent := false, infoboxRows := [], tocTexts := [],
    headings := [], categoryTexts := [], langLinkCount := 0 }

/-- A search page with no redirect and no results. -/
def emptySearchEnv : WikiSearchEnv :=
  { redirected := false, articleEnv := emptyArticleEnv, waitSucceeds := true,
    noneFound := false, results := [], hasNextLink := false }

/-- An article page that exists but is empty. -/
def emptyArticlePageEnv : WikiArticlePageEnv :=
  { noArticle := false, articleEnv := emptyArticleEnv }

/-- A `json.loads` stand-in for runs that never reach parsing. -/
def noLoads : String → Option Value := fun _ => none

/-- A subprocess environment with credentials and a clean exit but empty
output. -/
def plainXEnv : XEnv :=
  { auth := some ("t", "c"), timedOut := false, procExit := 0,
    stdoutText := "", stderrText := "" }

/-- A subprocess environment with missing credentials. -/
def noAuthXEnv : XEnv :=
  { auth := none, timedOut := false, procExit := 0, stdoutText := "",
    stderrText := "" }

/-- A browser page with an empty title and no results. -/
def emptyBraveEnv : BraveEnv :=
  { title := "", containerAppears := false, snippets := [] }

/-- The result the translation recipe returns for an empty `en-de` query. -/
def emptyTranslationResult : ScrapeResult :=
  { items := [[("source_text", Value.str ""), ("translated_text", Value.str ""),
               ("source_lang", Value.str "en"), ("target_lang", Value.str "de")]],
    current_page := 1, has_next := false }

/-- A well-formed JSON array the external tool could print on stdout: one
tweet whose `replyCount` happens to be a nested list. -/
def c3Json : String := "[\x7b\"text\": \"hi\", \"replyCount\": [1]\x7d]"

/-- The value `json.loads` produces for `c3Json`. -/
def c3Tweets : Value :=
  Value.arr [Value.obj [("text", Value.str "hi"),
                        ("replyCount", Value.arr [Value.num 1])]]

/-- A `json.loads` stand-in that agrees with the Python `json.loads` on the
one input this run reaches. -/
def c3Loads : String → Option Value :=
  fun s => if s = c3Json then some c3Tweets else none

/-- Subprocess environment whose stdout is `c3Json`. -/
def c3XEnv : XEnv :=
  { auth := some ("t", "c"), timedOut := false, procExit := 0,
    stdoutText := c3Json, stderrText := "" }

/-- The item the social-timeline recipe builds from the `c3Json` tweet. -/
def c3Item : List (String × Value) :=
  [("text", Value.str "hi"),
   ("author", Value.str "alice"),
   ("author_name", Value.str ""),
   ("timestamp", Value.str ""),
   ("url", Value.str "https://x.com/alice/status/"),
   ("replies", Value.arr [Value.num 1]),
   ("reposts", Value.null),
   ("likes", Value.null),
   ("views", Value.null),
   ("is_retweet", Value.bool false)]

/-! ## Lemmas about the polling loop -/

/-- A value returned by an early exit of the polling loop is nonempty. -/
theorem pollRun_inr_ne_empty (query : String) :
    ∀ (obs : List String) (st : PollState) (v : String),
      pollRun query obs st = Sum.inr v → v ≠ "" := by
  intro obs
  induction obs with
  | nil => intro st v h; simp [pollRun] at h
  | cons c rest ih =>
    intro st v h
    simp only [pollRun] at h
    rcases hstep : pollStep query st c with st2 | w
    · rw [hstep] at h
      exact ih st2 v h
    · rw [hstep] at h
      cases h
      unfold pollStep at hstep
      split at hstep
      · cases hstep
      · split at hstep
        · split at hstep
          · cases hstep
            rename_i htriv heqt _
            intro hemp
            rw [hemp] at heqt
            exact htriv (Or.inl heqt)
          · cases hstep
        · cases hstep

/-- After loop exhaustion, `translated` is empty iff it was empty at entry
and every observation was trivial (empty or equal to the stripped query). -/
theorem pollRun_inl_translated (query : String) :
    ∀ (obs : List String) (st st2 : PollState),
      pollRun query obs st = Sum.inl st2 →
        (st2.translated = "" ↔
          (st.translated = "" ∧ ∀ c ∈ obs, c = "" ∨ c = pyStrip query)) := by
  intro obs
  induction obs with
  | nil =>
    intro st st2 h
    simp only [pollRun] at h
    cases h
    simp
  | cons c rest ih =>
    intro st st2 h
    simp only [pollRun] at h
    rcases hstep : pollStep query st c with st3 | w
    · rw [hstep] at h
      have hrec := ih st3 st2 h
      unfold pollStep at hstep
      split at hstep
      · -- trivial observation: translated preserved, counter reset
        cases hstep
        rename_i htriv
        simp only [hrec]
        constructor
        · rintro ⟨h1, h2⟩
          exact ⟨h1, by
            intro d hd
            rcases List.mem_cons.mp hd with rfl | hd2
            · exact htriv
            · exact h2 d hd2⟩
        · rintro ⟨h1, h2⟩
          exact ⟨h1, fun d hd => h2 d (List.mem_cons_of_mem c hd)⟩
      · split at hstep
        · split at hstep
          · cases hstep
          · -- confirming observation: translated preserved and nonempty
            cases hstep
            rename_i htriv heqt _
            have hne : st.translated ≠ "" := by
              intro hemp
              rw [hemp] at heqt
              exact htriv (Or.inl heqt)
            simp only [hrec]
            constructor
            · rintro ⟨h1, _⟩
              exact absurd h1 hne
            · rintro ⟨h1, _⟩
              exact absurd h1 hne
        · -- new value recorded: translated becomes the nontrivial value
          cases hstep
          rename_i htriv hneq
          have hcne : c ≠ "" := fun hemp => htriv (Or.inl hemp)
          simp only [hrec]
          constructor
          · rintro ⟨h1, _⟩
            exact absurd h1 hcne
          · rintro ⟨_, h2⟩
            exact absurd (h2 c (List.mem_cons_self c rest)) (by
              push_neg
              exact ⟨hcne, fun heq => htriv (Or.inr heq)⟩)
    · rw [hstep] at h
      cases h

/-- If every observation is trivial, the loop never exits early and
`translated` is preserved. -/
theorem pollRun_all_trivial (query : String) :
    ∀ (obs : List String) (st : PollState),
      (∀ c ∈ obs, c = "" ∨ c = pyStrip query) →
        ∃ st2, pollRun query obs st = Sum.inl st2 ∧ st2.translated = st.translated := by
  intro obs
  induction obs with
  | nil => intro st _; exact ⟨st, rfl, rfl⟩
  | cons c rest ih =>
    intro st hall
    have hc : c = "" ∨ c = pyStrip query := hall c (List.mem_cons_self c rest)
    have hstep : pollStep query st c = Sum.inl ⟨st.translated, 0⟩ := by
      unfold pollStep
      rw [if_pos hc]
    obtain ⟨st2, hrun, htr⟩ :=
      ih ⟨st.translated, 0⟩ (fun d hd => hall d (List.mem_cons_of_mem c hd))
    exact ⟨st2, by simp only [pollRun, hstep, hrun], htr⟩

/-! ## C1 -/

/-- C1, counterexample: on the spec test vector
`[q, q, "partial", "partial", "final", "final", "final", "final", "final",
"final"]` with stability threshold 6, the stabilization loop has NOT returned
after the sixth consecutive `"final"` observation: the counter stands at 5,
below the threshold, and polling continues. -/
theorem C1_counterexample :
    pollRun "bonjour" c1Obs ⟨"", 0⟩ = Sum.inl ⟨"final", 5⟩
      ∧ 5 < requiredStable := by
  constructor
  · decide
  · decide

/-- C1, amended: the first `"final"` observation only records the value and
resets the counter, so with threshold 6 the loop returns `"final"` after a
seventh consecutive `"final"` observation, not the sixth: on the given
10-value sequence the loop is still running with counter 5, one further
`"final"` observation makes it return `"final"`, and the full polling phase
(leading echoes of the input ignored) succeeds with `"final"`. -/
theorem C1_amended :
    pollRun "bonjour" c1Obs ⟨"", 0⟩ = Sum.inl ⟨"final", 5⟩
      ∧ pollRun "bonjour" (c1Obs ++ ["final"]) ⟨"", 0⟩ = Sum.inr "final"
      ∧ convergencePoll "bonjour"
          (fun n => if n < 2 then "bonjour" else if n < 4 then "partial" else "final")
        = PollOutcome.success "final" := by
  refine ⟨by decide, by decide, by decide⟩

/-! ## C2 -/

/-- C2, counterexample: an observation sequence alternating between two
non-trivial values never stays unchanged even once (the loop never exits
early and the final counter is 0), yet the polling phase returns the
last-seen value as a success instead of failing with the timeout. -/
theorem C2_counterexample :
    pollRun "q0" ((List.range maxAttempts).map
        (fun n => if n % 2 = 0 then "alpha" else "beta")) ⟨"", 0⟩
      = Sum.inl ⟨"beta", 0⟩
      ∧ convergencePoll "q0" (fun n => if n % 2 = 0 then "alpha" else "beta")
        = PollOutcome.success "beta" := by
  refine ⟨by decide, by decide⟩

/-- C2, amended: the polling phase fails with the timeout error iff every one
of the `maxAttempts` observations is trivial (empty or equal to the stripped
input); whenever some non-trivial value is observed the phase returns a
nonempty value — the last-seen one — even if it never stabilized. -/
theorem C2_amended :
    (∀ (query : String) (obs : Nat → String),
      convergencePoll query obs = PollOutcome.timeout ↔
        ∀ i < maxAttempts, obs i = "" ∨ obs i = pyStrip query)
    ∧ (∀ (query : String) (obs : Nat → String) (v : String),
        convergencePoll query obs = PollOutcome.success v → v ≠ "") := by
  constructor
  · intro query obs
    constructor
    · intro h i hi
      unfold convergencePoll at h
      rcases hrun : pollRun query ((List.range maxAttempts).map obs) ⟨"", 0⟩ with st | w
      · rw [hrun] at h
        simp only [finishPoll] at h
        by_cases hemp : st.translated = ""
        · have := (pollRun_inl_translated query _ _ _ hrun).mp hemp
          exact this.2 (obs i) (List.mem_map_of_mem obs (List.mem_range.mpr hi))
        · rw [if_neg hemp] at h
          cases h
      · rw [hrun] at h
        simp only [finishPoll] at h
        cases h
    · intro hall
      obtain ⟨st2, hrun, htr⟩ := pollRun_all_trivial query
        ((List.range maxAttempts).map obs) ⟨"", 0⟩
        (by
          intro c hc
          obtain ⟨i, hi, rfl⟩ := List.mem_map.mp hc
          exact hall i (List.mem_range.mp hi))
      unfold convergencePoll
      rw [hrun]
      simp only [finishPoll]
      rw [if_pos htr]
  · intro query obs v h
    unfold convergencePoll at h
    rcases hrun : pollRun query ((List.range maxAttempts).map obs) ⟨"", 0⟩ with st | w
    · rw [hrun] at h
      simp only [finishPoll] at h
      by_cases hemp : st.translated = ""
      · rw [if_pos hemp] at h
        cases h
      · rw [if_neg hemp] at h
        cases h
        exact hemp
    · rw [hrun] at h
      simp only [finishPoll] at h
      cases h
      exact pollRun_inr_ne_empty query _ _ _ hrun

/-- Witness for C2_amended at concrete inputs: all-trivial observations time
out, and a constant non-trivial observation succeeds with a nonempty value. -/
theorem C2_amended_witness :
    convergencePoll "x" (fun _ => "") = PollOutcome.timeout
      ∧ ("stable" : String) ≠ "" := by
  refine ⟨(C2_amended.1 "x" (fun _ => "")).mpr (fun i _ => Or.inl rfl), ?_⟩
  exact C2_amended.2 "x" (fun _ => "stable") "stable" (by decide)

/-! ## C4 -/

/-- C4, counterexample: a snippet with a title but no external URL is
discarded by `_parse_snippet`, although the claim says a snippet having at
least one of the two is kept. -/
theorem C4_counterexample :
    parseSnippet { titleTexts := [some "Example Domain"], links := [],
                   descTexts := [], siteText := none } = none
      ∧ firstNonempty [some "Example Domain"] ≠ "" := by
  refine ⟨rfl, by decide⟩

/-- C4, amended: a raw snippet is kept exactly when it has BOTH a nonempty
title (via the selector-fallback chain) and an external href; it is discarded
when either is missing. -/
theorem C4_amended (s : RawSnippet) :
    (parseSnippet s).isSome = true ↔
      (firstNonempty s.titleTexts ≠ "" ∧ firstExternalHref s.links ≠ "") := by
  unfold parseSnippet
  by_cases ht : firstNonempty s.titleTexts = ""
  · simp [ht]
  · by_cases hh : firstExternalHref s.links = ""
    · simp [ht, hh]
    · simp [ht, hh]

/-- Witness for C4_amended: a snippet with both a title and an external link
is kept. -/
theorem C4_amended_witness :
    (parseSnippet { titleTexts := [some "Example Domain"],
                    links := ["https://example.com/"],
                    descTexts := [], siteText := none }).isSome = true := by
  exact (C4_amended _).mpr ⟨by decide, by decide⟩

/-! ## C6 -/

/-- C6, counterexample: the endpoint `"search"` is supported by both the
search-engine recipe and the encyclopedia recipe, so the supported endpoint
sets of the registered recipes are not pairwise disjoint. -/
theorem C6_counterexample :
    braveSupports "search" = true ∧ wikiSupports "search" = true
      ∧ supportCount "search" = 2 := by
  refine ⟨by decide, by decide, by decide⟩

/-- C6, amended: `supports` is a pure membership test in the embedding; the
endpoint sets are NOT pairwise disjoint: exactly two recipes claim
`"search"`, while every other endpoint is claimed by at most one recipe. -/
theorem C6_amended :
    supportCount "search" = 2 ∧ ∀ e : String, e ≠ "search" → supportCount e ≤ 1 := by
  constructor
  · decide
  · intro e he
    by_cases h1 : e = "article"
    · subst h1; decide
    by_cases h2 : e = "de-en"
    · subst h2; decide
    by_cases h3 : e = "en-de"
    · subst h3; decide
    by_cases h4 : e = "posts"
    · subst h4; decide
    have b1 : (e == "search") = false := beq_eq_false_iff_ne.mpr he
    have b2 : (e == "article") = false := beq_eq_false_iff_ne.mpr h1
    have b3 : (e == "posts") = false := beq_eq_false_iff_ne.mpr h4
    have b4 : (e == "de-en") = false := beq_eq_false_iff_ne.mpr h2
    have b5 : (e == "en-de") = false := beq_eq_false_iff_ne.mpr h3
    simp [supportCount, braveSupports, deeplSupports, wikiSupports, xSupports,
          langPairs, List.lookup, b1, b2, b3, b4, b5]

/-- Witness for C6_amended at a concrete endpoint. -/
theorem C6_amended_witness :
    supportCount "search" = 2 ∧ supportCount "posts" ≤ 1 := by
  exact ⟨C6_amended.1, C6_amended.2 "posts" (by decide)⟩

/-! ## C7 -/

/-- C7: invoking the translation recipe on `"en-de"` with an empty or
whitespace-only query returns exactly one item whose `source_text` and
`translated_text` are both empty, and performs no page navigation. -/
theorem C7_empty_query (q : String) (h : pyStrip q = "") (cnt pg : Option String)
    (env : DeeplEnv) :
    deeplScrape "en-de" { query := some q, count := cnt, page := pg } env
      = (Except.ok { items := [[("source_text", Value.str ""),
                                ("translated_text", Value.str ""),
                                ("source_lang", Value.str "en"),
                                ("target_lang", Value.str "de")]],
                     current_page := 1, has_next := false }, 0) := by
  unfold deeplScrape
  simp only [langPairs, List.lookup]
  norm_num
  simp [Option.getD, h]

/-- Witness for C7 at the empty query. -/
theorem C7_empty_query_witness :
    deeplScrape "en-de" { query := some "" } { sourceInputFound := true, obs := fun _ => "" }
      = (Except.ok { items := [[("source_text", Value.str ""),
                                ("translated_text", Value.str ""),
                                ("source_lang", Value.str "en"),
                                ("target_lang", Value.str "de")]],
                     current_page := 1, has_next := false }, 0) := by
  exact C7_empty_query "" (by decide) none none _

/-! ## C8 -/

/-- C8: when the bounded wait for the results container times out (and no
CAPTCHA was detected), the search-engine scrape returns a non-error result
with empty items, `has_next = false` and `current_page` equal to the clamped
requested page number. -/
theorem C8_container_timeout (p : Params) (env : BraveEnv) (c pg : Int)
    (hq : pyStrip (p.query.getD "") ≠ "")
    (hc : pyInt (p.count.getD "20") = some c)
    (hp : pyInt (p.page.getD "1") = some pg)
    (hcap : strContains (pyLower env.title) "captcha" = false)
    (hcont : env.containerAppears = false) :
    braveScrape p env
      = (Except.ok { items := [], current_page := max pg 1, has_next := false },
         ⟨1, 1⟩) := by
  unfold braveScrape
  rw [if_neg hq, hc, hp, hcap, hcont]
  simp

/-- Witness for C8 at a concrete invocation. -/
theorem C8_container_timeout_witness :
    braveScrape { query := some "rust", count := none, page := some "3" }
        { title := "Brave Search", containerAppears := false, snippets := [] }
      = (Except.ok { items := [], current_page := 3, has_next := false },
         ⟨1, 1⟩) := by
  exact C8_container_timeout _ _ 20 3 (by decide) (by decide) (by decide)
    (by decide) rfl

/-! ## C9 -/

/-- C9: whenever the page title contains the substring `"CAPTCHA"` in any
letter case (a case variant `w` of it occurs in the title), the search-engine
scrape fails with the distinguishable blocked error and performs no element
query or extraction operation after the detection. -/
theorem C9_captcha_blocked (p : Params) (env : BraveEnv) (c pg : Int) (w : String)
    (hq : pyStrip (p.query.getD "") ≠ "")
    (hc : pyInt (p.count.getD "20") = some c)
    (hp : pyInt (p.page.getD "1") = some pg)
    (hw : pyLower w = "captcha")
    (hsub : w.data <:+: env.title.data) :
    braveScrape p env
      = (Except.error Err.blocked, { navigations := 1, extractionQueries := 0 }) := by
  have hinf : ("captcha" : String).data <:+: (pyLower env.title).data := by
    have hmap := List.IsInfix.map Char.toLower hsub
    have hdata : w.data.map Char.toLower = ("captcha" : String).data :=
      congrArg String.data hw
    rw [hdata] at hmap
    exact hmap
  have hcap : strContains (pyLower env.title) "captcha" = true :=
    decide_eq_true hinf
  unfold braveScrape
  rw [if_neg hq, hc, hp, hcap]
  simp

/-- Witness for C9 at a concrete mixed-case title. -/
theorem C9_captcha_blocked_witness :
    braveScrape { query := some "rust", count := none, page := none }
        { title := "Security Check - CaPtChA required", containerAppears := true,
          snippets := [] }
      = (Except.error Err.blocked, { navigations := 1, extractionQueries := 0 }) := by
  exact C9_captcha_blocked _ _ 20 1 "CaPtChA" (by decide) (by decide) (by decide)
    (by decide) (by decide)

/-! ## C10 -/

/-- C10, counterexample: with an empty query and a non-integer count, all
three recipes fail with the missing-query error (InvalidRequest), not with an
unhandled integer-conversion error -- the query check precedes the
conversion. -/
theorem C10_counterexample :
    (braveScrape { query := some "", count := some "abc", page := none }
        emptyBraveEnv).1
      = Except.error Err.invalidRequest
      ∧ wikiScrape "search" { query := some "", count := some "abc", page := none }
          emptySearchEnv emptyArticlePageEnv
        = Except.error Err.invalidRequest
      ∧ xScrape noLoads { query := some "", count := some "abc", page := none }
          plainXEnv
        = Except.error Err.invalidRequest
      ∧ Err.invalidRequest ≠ Err.valueError := by
  refine ⟨rfl, rfl, rfl, by decide⟩

/-- C10, amended: the unhandled integer-conversion failure occurs only when
the query/handle validation has already passed: with a nonempty stripped
query, a non-integer `count` makes the search-engine, encyclopedia-search and
social-timeline scrapes fail with the unhandled `ValueError`, and a
non-integer `page` does the same for the search-engine and
encyclopedia-search scrapes; the social-timeline scrape never reads the
`page` parameter at all. -/
theorem C10_amended :
    (∀ (q c : String) (pg : Option String) (bEnv : BraveEnv) (sEnv : WikiSearchEnv)
        (aEnv : WikiArticlePageEnv) (loads : String → Option Value) (xEnv : XEnv),
      pyStrip q ≠ "" → pyLStrip '@' (pyStrip q) ≠ "" → pyInt c = none →
        (braveScrape { query := some q, count := some c, page := pg } bEnv).1
            = Except.error Err.valueError
          ∧ wikiScrape "search" { query := some q, count := some c, page := pg } sEnv aEnv
            = Except.error Err.valueError
          ∧ xScrape loads { query := some q, count := some c, page := pg } xEnv
            = Except.error Err.valueError)
    ∧ (∀ (q c pg : String) (c0 : Int) (bEnv : BraveEnv) (sEnv : WikiSearchEnv)
          (aEnv : WikiArticlePageEnv),
        pyStrip q ≠ "" → pyInt c = some c0 → pyInt pg = none →
          (braveScrape { query := some q, count := some c, page := some pg } bEnv).1
              = Except.error Err.valueError
            ∧ wikiScrape "search" { query := some q, count := some c, page := some pg }
                sEnv aEnv
              = Except.error Err.valueError)
    ∧ (∀ (loads : String → Option Value) (q c : String) (pg pg2 : Option String)
          (xEnv : XEnv),
        xScrape loads { query := some q, count := some c, page := pg } xEnv
          = xScrape loads { query := some q, count := some c, page := pg2 } xEnv) := by
  refine ⟨?_, ?_, ?_⟩
  · intro q c pg bEnv sEnv aEnv loads xEnv hq hu hc
    refine ⟨?_, ?_, ?_⟩
    · simp [braveScrape, hq, hc]
    · simp [wikiScrape, wikiSearch, hq, hc]
    · simp [xScrape, hu, hc]
  · intro q c pg c0 bEnv sEnv aEnv hq hc hp
    refine ⟨?_, ?_⟩
    · simp [braveScrape, hq, hc, hp]
    · simp [wikiScrape, wikiSearch, hq, hc, hp]
  · intro loads q c pg pg2 xEnv
    rfl

/-- Witness for C10_amended at concrete inputs. -/
theorem C10_amended_witness :
    (braveScrape { query := some "rust", count := some "abc", page := none }
        emptyBraveEnv).1
      = Except.error Err.valueError
      ∧ (braveScrape { query := some "rust", count := some "5", page := some "xyz" }
          emptyBraveEnv).1
        = Except.error Err.valueError
      ∧ xScrape noLoads { query := some "bob", count := some "5", page := some "zz" }
          noAuthXEnv
        = xScrape noLoads { query := some "bob", count := some "5", page := none }
          noAuthXEnv := by
  refine ⟨?_, ?_, ?_⟩
  · exact (C10_amended.1 "rust" "abc" none emptyBraveEnv emptySearchEnv
      emptyArticlePageEnv noLoads noAuthXEnv (by decide) (by decide) (by decide)).1
  · exact (C10_amended.2.1 "rust" "5" "xyz" 5 emptyBraveEnv emptySearchEnv
      emptyArticlePageEnv (by decide) (by decide) (by decide)).1
  · exact C10_amended.2.2 noLoads "bob" "5" (some "zz") none noAuthXEnv

/-! ## Lemmas for the item-count bounds -/

/-- A successful `Option`-monadic map preserves the length. -/
theorem length_mapM_option {α β : Type} (f : α → Option β) :
    ∀ (l : List α) (res : List β), l.mapM f = some res → res.length = l.length := by
  intro l
  induction l with
  | nil =>
    intro res h
    simp only [List.mapM_nil, Option.pure_def, Option.some.injEq] at h
    subst h
    rfl
  | cons a t ih =>
    intro res h
    rw [List.mapM_cons] at h
    cases hfa : f a with
    | none =>
      rw [hfa] at h
      simp at h
    | some b =>
      rw [hfa] at h
      cases ht : t.mapM f with
      | none =>
        rw [ht] at h
        simp at h
      | some bs =>
        rw [ht] at h
        simp only [Option.pure_def, Option.bind_eq_bind, Option.some_bind,
          Option.some.injEq] at h
        subst h
        simp [ih bs ht]

/-- A nonnegative Python slice bound caps the length. -/
theorem length_pySliceTo_le {α : Type} (l : List α) (n : Int) (hn : 0 ≤ n) :
    ((pySliceTo l n).length : Int) ≤ n := by
  unfold pySliceTo
  rw [if_pos hn]
  have h1 : (l.take n.toNat).length ≤ n.toNat := List.length_take_le _ _
  have h2 : ((l.take n.toNat).length : Int) ≤ (n.toNat : Int) := Int.ofNat_le.mpr h1
  rwa [Int.toNat_of_nonneg hn] at h2

/-- The article extractor always produces exactly one item on page 1. -/
theorem extractArticle_shape (env : WikiArticleEnv) :
    (extractArticle env).items.length = 1 ∧ (extractArticle env).current_page = 1 :=
  ⟨rfl, rfl⟩

/-- Annotating the redirect origin changes neither the item count nor the
page number. -/
theorem setRedirectedFrom_shape (r : ScrapeResult) (q : String) :
    (setRedirectedFrom r q).items.length = r.items.length
      ∧ (setRedirectedFrom r q).current_page = r.current_page := by
  unfold setRedirectedFrom
  split
  · exact ⟨rfl, rfl⟩
  · rename_i it rest heq
    rw [heq]
    exact ⟨rfl, rfl⟩

/-! ## C5 -/

/-- C5, counterexample: the translation recipe ignores the `count` parameter:
with `count = "0"` (and `page = "1"`) the empty-query invocation succeeds
with one item, violating `len(items) <= requested count`. -/
theorem C5_counterexample :
    (deeplScrape "en-de" { query := some "", count := some "0", page := some "1" }
        { sourceInputFound := true, obs := fun _ => "" }).1
      = Except.ok emptyTranslationResult
      ∧ pyInt "0" = some 0
      ∧ ¬ ((emptyTranslationResult.items.length : Int) ≤ 0) := by
  refine ⟨rfl, by decide, by decide⟩

/-- C5, amended: `current_page >= 1` holds for every successful invocation of
every recipe; `len(items) <= requested count` holds for the search-engine
recipe, the encyclopedia search endpoint when no redirect occurs, and the
social-timeline recipe whenever the requested count is nonnegative; the
translation recipe, the encyclopedia article endpoint and the encyclopedia
search redirect case return exactly one item regardless of `count`. -/
theorem C5_amended :
    (∀ (p : Params) (env : BraveEnv) (r : ScrapeResult) (eff : BraveEffects),
      braveScrape p env = (Except.ok r, eff) →
        1 ≤ r.current_page
          ∧ ∀ c : Int, pyInt (p.count.getD "20") = some c → 0 ≤ c →
              (r.items.length : Int) ≤ c)
    ∧ (∀ (p : Params) (sEnv : WikiSearchEnv) (r : ScrapeResult),
        wikiSearch p sEnv = Except.ok r →
          1 ≤ r.current_page
            ∧ (sEnv.redirected = true → r.items.length = 1)
            ∧ (sEnv.redirected = false → ∀ c : Int,
                pyInt (p.count.getD "20") = some c → 0 ≤ c →
                  (r.items.length : Int) ≤ c))
    ∧ (∀ (p : Params) (aEnv : WikiArticlePageEnv) (r : ScrapeResult),
        wikiArticle p aEnv = Except.ok r →
          r.items.length = 1 ∧ r.current_page = 1)
    ∧ (∀ (endpoint : String) (p : Params) (env : DeeplEnv) (r : ScrapeResult) (nav : Nat),
        deeplScrape endpoint p env = (Except.ok r, nav) →
          r.items.length = 1 ∧ r.current_page = 1)
    ∧ (∀ (loads : String → Option Value) (p : Params) (env : XEnv) (r : ScrapeResult),
        xScrape loads p env = Except.ok r →
          r.current_page = 1
            ∧ ∀ c : Int, pyInt (p.count.getD "10") = some c → 0 ≤ c →
                (r.items.length : Int) ≤ c) := by
  refine ⟨?_, ?_, ?_, ?_, ?_⟩
  · -- search-engine recipe
    intro p env r eff h
    simp only [braveScrape] at h
    by_cases hq : pyStrip (p.query.getD "") = ""
    · rw [if_pos hq] at h
      simp at h
    rw [if_neg hq] at h
    rcases hc0 : pyInt (p.count.getD "20") with _ | count0 <;> rw [hc0] at h
    · simp at h
    rcases hp0 : pyInt (p.page.getD "1") with _ | page0 <;> rw [hp0] at h
    · simp at h
    simp only [] at h
    by_cases hcap : strContains (pyLower env.title) "captcha" = true
    · rw [if_pos hcap] at h
      simp at h
    rw [if_neg hcap] at h
    by_cases hcont : env.containerAppears = false
    · rw [if_pos hcont] at h
      have h1 := congrArg Prod.fst h
      injection h1 with h1
      subst h1
      refine ⟨le_max_right _ _, ?_⟩
      intro c hc hcn
      simpa using hcn
    · rw [if_neg hcont] at h
      have h1 := congrArg Prod.fst h
      injection h1 with h1
      subst h1
      refine ⟨le_max_right _ _, ?_⟩
      intro c hc hcn
      injection hc with hc
      subst hc
      have hb1 : ((pySliceTo env.snippets (min count0 50)).filterMap parseSnippet).length
          ≤ (pySliceTo env.snippets (min count0 50)).length :=
        List.length_filterMap_le _ _
      calc (((pySliceTo env.snippets (min count0 50)).filterMap parseSnippet).length : Int)
          ≤ ((pySliceTo env.snippets (min count0 50)).length : Int) := Int.ofNat_le.mpr hb1
        _ ≤ min count0 50 := length_pySliceTo_le _ _ (le_min hcn (by norm_num))
        _ ≤ count0 := min_le_left _ _
  · -- encyclopedia search
    intro p sEnv r h
    simp only [wikiSearch] at h
    by_cases hq : pyStrip (p.query.getD "") = ""
    · rw [if_pos hq] at h
      simp at h
    rw [if_neg hq] at h
    rcases hc0 : pyInt (p.count.getD "20") with _ | count0 <;> rw [hc0] at h
    · simp at h
    rcases hp0 : pyInt (p.page.getD "1") with _ | page0 <;> rw [hp0] at h
    · simp at h
    simp only [] at h
    by_cases hred : sEnv.redirected = true
    · rw [if_pos hred] at h
      injection h with h1
      subst h1
      have hs := setRedirectedFrom_shape (extractArticle sEnv.articleEnv)
        (pyStrip (p.query.getD ""))
      have ha := extractArticle_shape sEnv.articleEnv
      refine ⟨?_, fun _ => ?_, fun hnr => ?_⟩
      · rw [hs.2, ha.2]
      · rw [hs.1, ha.1]
      · rw [hred] at hnr
        cases hnr
    · rw [if_neg hred] at h
      have hrf : sEnv.redirected = false := by
        cases hr2 : sEnv.redirected
        · rfl
        · exact absurd hr2 hred
      by_cases hwait : sEnv.waitSucceeds = false
      · rw [if_pos hwait] at h
        simp at h
      rw [if_neg hwait] at h
      by_cases hnone : sEnv.noneFound = true
      · rw [if_pos hnone] at h
        injection h with h1
        subst h1
        refine ⟨le_max_right _ _, fun hr => absurd hr hred, fun _ => ?_⟩
        intro c hc hcn
        simpa using hcn
      · rw [if_neg hnone] at h
        injection h with h1
        subst h1
        refine ⟨le_max_right _ _, fun hr => absurd hr hred, fun _ => ?_⟩
        intro c hc hcn
        injection hc with hc
        subst hc
        have hb1 : (extractSearchResults sEnv.results (min count0 50)).length
            ≤ (pySliceTo sEnv.results (min count0 50)).length :=
          List.length_filterMap_le _ _
        calc ((extractSearchResults sEnv.results (min count0 50)).length : Int)
            ≤ ((pySliceTo sEnv.results (min count0 50)).length : Int) := Int.ofNat_le.mpr hb1
          _ ≤ min count0 50 := length_pySliceTo_le _ _ (le_min hcn (by norm_num))
          _ ≤ count0 := min_le_left _ _
  · -- encyclopedia article
    intro p aEnv r h
    simp only [wikiArticle] at h
    by_cases hq : pyStrip (p.query.getD "") = ""
    · rw [if_pos hq] at h
      simp at h
    rw [if_neg hq] at h
    by_cases hna : aEnv.noArticle = true
    · rw [if_pos hna] at h
      simp at h
    rw [if_neg hna] at h
    injection h with h1
    subst h1
    exact extractArticle_shape aEnv.articleEnv
  · -- translation recipe
    intro endpoint p env r nav h
    simp only [deeplScrape] at h
    rcases hlp : langPairs.lookup endpoint with _ | pair <;> rw [hlp] at h
    · simp at h
    rcases pair with ⟨sourceLang, targetLang⟩
    simp only [] at h
    by_cases hq : pyStrip (p.query.getD "") = ""
    · rw [if_pos hq] at h
      have h1 := congrArg Prod.fst h
      injection h1 with h1
      subst h1
      exact ⟨rfl, rfl⟩
    rw [if_neg hq] at h
    by_cases hsi : env.sourceInputFound = false
    · rw [if_pos hsi] at h
      simp at h
    rw [if_neg hsi] at h
    rcases hcp : convergencePoll (p.query.getD "") env.obs with t | _
    · rw [hcp] at h
      simp only [] at h
      have h1 := congrArg Prod.fst h
      injection h1 with h1
      subst h1
      exact ⟨rfl, rfl⟩
    · rw [hcp] at h
      simp at h
  · -- social-timeline recipe
    intro loads p env r h
    simp only [xScrape] at h
    by_cases hu : pyLStrip '@' (pyStrip (p.query.getD "")) = ""
    · rw [if_pos hu] at h
      simp at h
    rw [if_neg hu] at h
    rcases hc0 : pyInt (p.count.getD "10") with _ | count0 <;> rw [hc0] at h
    · simp at h
    simp only [] at h
    rcases hauth : env.auth with _ | cred <;> rw [hauth] at h
    · simp at h
    simp only [] at h
    by_cases hto : env.timedOut = true
    · rw [if_pos hto] at h
      simp at h
    rw [if_neg hto] at h
    by_cases hexit : env.procExit ≠ 0
    · rw [if_pos hexit] at h
      split at h <;> simp at h
    rw [if_neg hexit] at h
    rcases hfind : pyFind (pyStrip env.stdoutText) "[" with _ | jsonStart <;> rw [hfind] at h
    · simp at h
    simp only [] at h
    rcases hload : loads (pyDrop (pyStrip env.stdoutText) jsonStart) with _ | v <;>
      rw [hload] at h
    · simp at h
    rcases v with _ | b | n | s | tweetsData | fs
    · simp at h
    · simp at h
    · simp at h
    · simp at h
    · simp only [] at h
      rcases hmap : (pySliceTo tweetsData (min count0 50)).mapM
          (xItemOfTweet (pyLStrip '@' (pyStrip (p.query.getD "")))) with _ | items <;>
        rw [hmap] at h
      · simp at h
      simp only [] at h
      injection h with h1
      subst h1
      refine ⟨rfl, ?_⟩
      intro c hc hcn
      injection hc with hc
      subst hc
      have hlen := length_mapM_option _ _ _ hmap
      calc ((items.length : Nat) : Int)
          = ((pySliceTo tweetsData (min count0 50)).length : Int) := by rw [hlen]
        _ ≤ min count0 50 := length_pySliceTo_le _ _ (le_min hcn (by norm_num))
        _ ≤ count0 := min_le_left _ _
    · simp at h

/-- Witness for C5_amended at concrete successful invocations. -/
theorem C5_amended_witness :
    (1 : Int) ≤ ({ items := [], current_page := 2, has_next := false } : ScrapeResult).current_page
      ∧ ((({ items := [], current_page := 2, has_next := false } : ScrapeResult).items.length : Int) ≤ 5)
      ∧ emptyTranslationResult.items.length = 1 := by
  have hb := C5_amended.1 { query := some "rust", count := some "5", page := some "2" }
    emptyBraveEnv { items := [], current_page := 2, has_next := false } ⟨1, 1⟩ rfl
  have hd := C5_amended.2.2.2.1 "en-de" { query := some "" }
    { sourceInputFound := true, obs := fun _ => "" } emptyTranslationResult 0 rfl
  exact ⟨hb.1, hb.2 5 rfl (by decide), hd.1⟩

/-! ## C3 -/

/-- Every field of the article record, before serialization, is a string, a
number, or a list/dict container — never a boolean or null. -/
theorem articleBase_values (env : WikiArticleEnv) :
    ∀ kv ∈ articleBase env, isScalar kv.2 = true ∨ isContainer kv.2 = true := by
  intro kv hkv
  simp only [articleBase, List.mem_append] at hkv
  rcases hkv with ((((((h | h) | h) | h) | h) | h) | h)
  · rcases henv : env.titleText with _ | t <;> rw [henv] at h
    · simp at h
    · simp at h
      rw [h]
      left
      rfl
  · simp at h
    rcases h with h | h <;> (rw [h]; left; rfl)
  · split at h
    · simp at h
    · simp at h
      rw [h]
      right
      rfl
  · split at h
    · simp at h
    · simp at h
      rw [h]
      right
      rfl
  · simp at h
    rw [h]
    right
    rfl
  · split at h
    · simp at h
    · simp at h
      rw [h]
      right
      rfl
  · split at h
    · simp at h
      rw [h]
      left
      rfl
    · simp at h

/-- C3, counterexample: a successful social-timeline invocation whose tool
output (valid JSON) carries a nested `replyCount` returns an item whose
`replies` field is a raw list — not a scalar and not a JSON-encoded string
(and whose `is_retweet` field is a boolean). -/
theorem C3_counterexample :
    xScrape c3Loads { query := some "alice", count := some "5", page := none } c3XEnv
      = Except.ok { items := [c3Item], current_page := 1, has_next := false }
      ∧ ("replies", Value.arr [Value.num 1]) ∈ c3Item
      ∧ isContainer (Value.arr [Value.num 1]) = true
      ∧ isScalar (Value.arr [Value.num 1]) = false
      ∧ ("is_retweet", Value.bool false) ∈ c3Item
      ∧ isScalar (Value.bool false) = false := by
  refine ⟨rfl, ?_, rfl, rfl, ?_, rfl⟩
  · simp [c3Item]
  · simp [c3Item]

/-- C3, amended: the scalar-or-JSON-string invariant holds for the
encyclopedia article result: after the serialization loop every field value
is a string or a number, each container field is replaced in place by exactly
the canonical `json.dumps` encoding of the original nested value, and each
non-container field is passed through unchanged.  (The social-timeline recipe
instead copies tool-provided values verbatim, so its items can carry raw
lists, booleans and nulls — see the counterexample.) -/
theorem C3_amended :
    (∀ (env : WikiArticleEnv), ∀ item ∈ (extractArticle env).items, ∀ kv ∈ item,
        isScalar kv.2 = true)
    ∧ (∀ (item : List (String × Value)), ∀ kv ∈ item,
        (isContainer kv.2 = false → kv ∈ flattenItem item)
        ∧ (isContainer kv.2 = true → (kv.1, Value.str (dumps kv.2)) ∈ flattenItem item)) := by
  constructor
  · intro env item hitem kv hkv
    simp only [extractArticle, List.mem_singleton] at hitem
    subst hitem
    simp only [flattenItem, List.mem_map] at hkv
    obtain ⟨kv0, h0, rfl⟩ := hkv
    rcases articleBase_values env kv0 h0 with hs | hc
    · have hnc : isContainer kv0.2 = false := by
        rcases kv0 with ⟨k, v⟩
        cases v <;> simp_all [isScalar, isContainer]
      simp [hnc, hs]
    · simp [hc, isScalar]
  · intro item kv hkv
    constructor
    · intro hnc
      simp only [flattenItem, List.mem_map]
      exact ⟨kv, hkv, by simp [hnc]⟩
    · intro hc
      simp only [flattenItem, List.mem_map]
      exact ⟨kv, hkv, by simp [hc]⟩

/-- Witness for C3_amended: the `url` field of an empty article page is a
scalar after flattening, and a nested list field is replaced by its canonical
JSON encoding. -/
theorem C3_amended_witness :
    isScalar (Value.str "") = true
      ∧ ("nested", Value.str (dumps (Value.arr [Value.num 1])))
          ∈ flattenItem [("nested", Value.arr [Value.num 1])] := by
  constructor
  · exact C3_amended.1 emptyArticleEnv (flattenItem (articleBase emptyArticleEnv))
      (List.mem_singleton.mpr rfl) ("url", Value.str "")
      (by
        show ("url", Value.str "") ∈
          [("url", Value.str ""), ("summary", Value.str ""), ("sections", Value.str "[]")]
        exact List.mem_cons_self _ _)
  · exact (C3_amended.2 [("nested", Value.arr [Value.num 1])]
      ("nested", Value.arr [Value.num 1]) (List.mem_cons_self _ _)).2 rfl

end Web2API
